import Mathlib

/-!
Shallow embedding of the OAuth2 credential and authorized-request core of
pyfy (src/pyfy/__init__.py): credential records and their expiry check,
authorization-header builders, the guards of the token-exchange operations,
JSON-to-record parsing, the field-by-field credential merge, and the
dispatcher with its 401-triggered refresh-and-resend logic.

Modelling conventions:
* Python `None` and an attribute that was never assigned are both `Option.none`
  (the two are indistinguishable to the merge loop, which skips a field when
  the fresh value `is None` and can only see assigned attributes).
* Timestamps (`datetime.datetime`) are integers compared numerically;
  `expires_in` seconds add onto `now`.
* Response bodies are modelled as flat JSON objects (`JBody`) holding exactly
  the keys the source reads; the HTTP transport is a finite script of events,
  one consumed per send.
* `_refresh_token` re-enters the dispatcher mutually recursively in the
  source, so the dispatcher takes the refresh operation as an explicit
  function (oracle) `CState → Except PyErr CState`; the trace counts its
  invocations.
* Request method, URL and non-Authorization headers never influence the
  dispatcher's control flow, so the embedding tracks only the Authorization
  header of each send.
-/

namespace Pyfy

/-- `ALL_SCOPES` (src lines 47-66). -/
def ALL_SCOPES : List String :=
  ["streaming", "app-remote-control", "user-follow-modify", "user-follow-read",
   "playlist-read-private", "playlist-modify-private", "playlist-read-collaborative",
   "playlist-modify-public", "user-modify-playback-state", "user-read-playback-state",
   "user-read-currently-playing", "user-read-private", "user-read-birthdate",
   "user-read-email", "user-library-read", "user-library-modify", "user-top-read",
   "user-read-recently-played"]

/-- `TOKEN_EXPIRED_MSG` (src line 42). -/
def TOKEN_EXPIRED_MSG : String := "The access token expired"

/-- Timeout message of `_send_request` (src line 313). -/
def timeoutMsg : String := "Request timed out.\nTry increasing the client\x27s timeout period"

/-- Message of the `ApiError` raised by `_access_authorization_header` (src line 544). -/
def noCallerMsg : String := "Call Requires an authorized caller, either client or user"

/-- Message of the `AuthError` raised by `authorize_client_creds` (src line 342). -/
def noClientCredsMsg : String := "No client credentials set"

/-- Message of the `AuthError` raised on a CSRF state mismatch (src line 436). -/
def statesMismatchMsg : String := "States do not match or state not provided"

/-- Message wrapping an `ApiError` of the token POST (src line 349). -/
def clientAuthFailedMsg : String := "Failed to authenticate with client credentials"

/-- Message of the `AttributeError` raised by `_client_authorization_header` (src line 530). -/
def noAuthHeaderCredsMsg : String := "No client credentials found to make an authorization header"

/-- Python `AttributeError` text for `None.get(...)` (src line 317 when the body has no error key). -/
def noneTypeNoGetMsg : String := "\x27NoneType\x27 object has no attribute \x27get\x27"

/-- Python `AttributeError` text for `"...".get(...)` (src line 317 when the error key holds a string). -/
def strNoGetMsg : String := "\x27str\x27 object has no attribute \x27get\x27"

/-- Python truthiness of a string-or-None value: `None` and `''` are falsy. -/
def pyTruthyS : Option String → Bool
  | none => false
  | some s => decide (s ≠ "")

/-- Python truthiness of a list value: `[]` is falsy. -/
def pyTruthyL : List String → Bool
  | [] => false
  | _ :: _ => true

/-- `_Creds.access_is_expired` (src lines 160-164): `self.expiry <= datetime.datetime.now()`
when `expiry` is a datetime, `None` otherwise. -/
def access_is_expired (expiry : Option Int) (now : Int) : Option Bool :=
  match expiry with
  | some e => some (decide (e ≤ now))
  | none => none

/-- `ClientCredentials` attributes assigned by its `__init__` (src lines 171-184). -/
structure ClientCredentials where
  client_id : Option String
  client_secret : Option String
  scopes : List String
  redirect_uri : Option String
  show_dialog : Option String
  access_token : Option String
  expiry : Option Int
deriving DecidableEq, Repr

/-- `ClientCredentials()` with its default arguments (src line 172). -/
def defaultClientCredentials : ClientCredentials :=
  ⟨none, none, ALL_SCOPES, some "http://localhost", some "false", none, none⟩

/-- `ClientCredentials.is_oauth_ready` (src lines 191-195):
`client_id and redirect_uri and scopes and show_dialog is not None`. -/
def is_oauth_ready (c : ClientCredentials) : Bool :=
  pyTruthyS c.client_id && pyTruthyS c.redirect_uri && pyTruthyL c.scopes &&
    c.show_dialog.isSome

/-- `UserCredentials` attributes assigned by its `__init__` (src lines 198-204).
The constructor accepts a `scopes` argument but never assigns `self.scopes`,
so the scopes attribute is absent on every constructed record. -/
structure UserCredentials where
  access_token : Option String
  refresh_token : Option String
  scopes : Option (List String)
  expiry : Option Int
  user_id : Option String
  state : Option String
deriving DecidableEq, Repr

/-- `UserCredentials.__init__` (src lines 198-204). `classDefaultState` is the
value `_create_secret()` produced when the `class UserCredentials` statement
executed: Python evaluates a default argument once, at definition time, so the
same value backs every call that omits `state`. `state?` is `none` when the
caller omits the `state` argument. The `scopes` parameter is accepted and
discarded: `self.scopes` is never assigned. -/
def UserCredentials.init (classDefaultState : String)
    (access_token : Option String) (refresh_token : Option String)
    (scopes : List String) (expiry : Option Int) (user_id : Option String)
    (state? : Option String) : UserCredentials :=
  { access_token := access_token
    refresh_token := refresh_token
    scopes := none
    expiry := expiry
    user_id := user_id
    state := some (state?.getD classDefaultState) }

/-- `UserCredentials()` : the record the `_set_empty_user_creds_if_none`
decorator builds (src lines 212-220). -/
def emptyUserCredentials (classDefaultState : String) : UserCredentials :=
  UserCredentials.init classDefaultState none none [] none none none

/-- One step of the merge loops (src lines 474-482 and 484-488): overwrite the
stored value only when the fresh value is assigned and not `None`. -/
def overwriteIfPresent {α : Type} (fresh old : Option α) : Option α :=
  match fresh with
  | some v => some v
  | none => old

/-- `_update_user_creds_with` (src lines 474-482): for every attribute assigned
on the fresh record, overwrite the stored one unless the value is `None`.
`scopes` participates like the rest: it is merged exactly when it is assigned
and non-`None` on the fresh record (which `UserCredentials.init` never does). -/
def update_user_creds_with (stored fresh : UserCredentials) : UserCredentials :=
  { access_token := overwriteIfPresent fresh.access_token stored.access_token
    refresh_token := overwriteIfPresent fresh.refresh_token stored.refresh_token
    scopes := overwriteIfPresent fresh.scopes stored.scopes
    expiry := overwriteIfPresent fresh.expiry stored.expiry
    user_id := overwriteIfPresent fresh.user_id stored.user_id
    state := overwriteIfPresent fresh.state stored.state }

/-- `_update_client_creds_with` (src lines 484-488). Every `ClientCredentials`
attribute is assigned by `__init__`; `scopes` is a list (never `None` in the
embedding) so it is always overwritten. -/
def update_client_creds_with (stored fresh : ClientCredentials) : ClientCredentials :=
  { client_id := overwriteIfPresent fresh.client_id stored.client_id
    client_secret := overwriteIfPresent fresh.client_secret stored.client_secret
    scopes := fresh.scopes
    redirect_uri := overwriteIfPresent fresh.redirect_uri stored.redirect_uri
    show_dialog := overwriteIfPresent fresh.show_dialog stored.show_dialog
    access_token := overwriteIfPresent fresh.access_token stored.access_token
    expiry := overwriteIfPresent fresh.expiry stored.expiry }

/-- Value of the `error` key of a response body: Spotify auth errors carry a
string, resource errors carry an object with a `message` field. -/
inductive JErr where
  | asStr (s : String)
  | asObj (message : Option String)
deriving DecidableEq, Repr

/-- A response body as a flat JSON object holding the keys the source reads.
A `none` field is an absent key. -/
structure JBody where
  errorField : Option JErr
  error_description : Option String
  access_token : Option String
  expires_in : Option Int
  scope : Option String
  refresh_token : Option String
  idField : Option String
deriving DecidableEq, Repr

/-- The empty JSON object. -/
def emptyBody : JBody := ⟨none, none, none, none, none, none, none⟩

/-- An HTTP response: status code and parsed JSON body. -/
structure HttpResponse where
  status_code : Nat
  body : JBody
deriving DecidableEq, Repr

/-- One transport event: a response, or a `requests` timeout. -/
inductive TEvent where
  | timeout
  | response (res : HttpResponse)
deriving DecidableEq, Repr

/-- The transport script: responses consumed one per send. -/
abbrev Script := List TEvent

/-- The `msg` argument carried by a raised error: a string, the whole parsed
body (`res.json()`), or Python `None`. -/
inductive ErrMsg where
  | text (s : String)
  | jsonBody (b : JBody)
  | noneMsg
deriving DecidableEq, Repr

/-- The exceptions the modelled core can raise. `apiError` and `authError`
carry their message and the triggering response (src lines 112-131);
`attributeError` and `keyError` are the uncaught Python exceptions the source
can produce. (The `assert` at src line 321 compares the dict
`new_auth_header` to the string `old_auth_header` and therefore always
passes; no `AssertionError` is reachable.) -/
inductive PyErr where
  | apiError (msg : ErrMsg) (http_response : Option HttpResponse)
  | authError (msg : ErrMsg) (http_response : Option HttpResponse)
  | attributeError (msg : String)
  | keyError (key : String)
deriving DecidableEq, Repr

/-- Kind test used to compare raised errors against the spec's two error kinds. -/
def outcomeIsAuthError {α : Type} : Except PyErr α → Bool
  | .error (.authError _ _) => true
  | _ => false

/-- `res.json().get('error', None).get('message', None)` (src line 317).
`None.get` and `'...'.get` raise `AttributeError`; an object error yields its
(possibly absent) `message`. -/
def errMessageLookup (b : JBody) : Except PyErr (Option String) :=
  match b.errorField with
  | none => .error (.attributeError noneTypeNoGetMsg)
  | some (.asStr _) => .error (.attributeError strNoGetMsg)
  | some (.asObj m) => .ok m

/-- `res.json().get('error_description', None) or res.json()` (src line 325):
a missing or falsy (empty) description falls back to the whole body. -/
def authErrMsg (b : JBody) : ErrMsg :=
  match b.error_description with
  | some d => if d = "" then .jsonBody b else .text d
  | none => .jsonBody b

/-- `res.json() or None` (src line 328): an empty object is falsy. -/
def apiErrMsg (b : JBody) : ErrMsg :=
  if b = emptyBody then .noneMsg else .jsonBody b

/-- `_user_json_to_object` (src lines 490-496): requires `access_token`,
`scope` and `expires_in` (a missing key raises `KeyError`, in evaluation
order), splits the scope string on single spaces, computes
`expiry = now + expires_in`, and takes `refresh_token` when present.
The resulting record passes through `UserCredentials.init`, which discards
the scopes argument and fills `state` with the class-level default. -/
def user_json_to_object (classDefaultState : String) (now : Int) (b : JBody) :
    Except PyErr UserCredentials :=
  match b.access_token with
  | none => .error (.keyError "access_token")
  | some tok =>
    match b.scope with
    | none => .error (.keyError "scope")
    | some sc =>
      match b.expires_in with
      | none => .error (.keyError "expires_in")
      | some ei =>
        .ok (UserCredentials.init classDefaultState (some tok) b.refresh_token
          (sc.splitOn " ") (some (now + ei)) none none)

/-- `_client_json_to_object` (src lines 498-503): a default-constructed
`ClientCredentials` with `access_token` and `expiry = now + expires_in` set. -/
def client_json_to_object (now : Int) (b : JBody) : Except PyErr ClientCredentials :=
  match b.access_token with
  | none => .error (.keyError "access_token")
  | some tok =>
    match b.expires_in with
    | none => .error (.keyError "expires_in")
    | some ei =>
      .ok { defaultClientCredentials with access_token := some tok, expiry := some (now + ei) }

/-- The base64 alphabet used by `base64.b64encode` (src lines 168 and 528). -/
def b64Alphabet : List Char :=
  "ABCDEFGHIJKLMNOPQRSTUVWXYZabcdefghijklmnopqrstuvwxyz0123456789+/".toList

/-- Digit of the base64 alphabet. -/
def b64Digit (n : Nat) : Char := b64Alphabet.getD n 'A'

/-- Standard base64 of a byte list, three bytes to four digits, with padding. -/
def b64Chunks : List Nat → List Char
  | [] => []
  | [a] => [b64Digit (a / 4), b64Digit (a % 4 * 16), '=', '=']
  | [a, b] => [b64Digit (a / 4), b64Digit (a % 4 * 16 + b / 16), b64Digit (b % 16 * 4), '=']
  | a :: b :: c :: rest =>
      b64Digit (a / 4) :: b64Digit (a % 4 * 16 + b / 16) ::
        b64Digit (b % 16 * 4 + c / 64) :: b64Digit (c % 64) :: b64Chunks rest

/-- `base64.b64encode` over the UTF-8 bytes of a string. -/
def b64encode (s : String) : String :=
  String.mk (b64Chunks (s.toUTF8.toList.map UInt8.toNat))

/-- `_client_authorization_header` (src lines 523-530): requires truthy
`client_id` and `client_secret`, else raises `AttributeError`; the value is
`Basic` plus the base64 of `client_id:client_secret`. -/
def client_authorization_header (c : ClientCredentials) : Except PyErr String :=
  if pyTruthyS c.client_id && pyTruthyS c.client_secret then
    .ok ("Basic " ++ b64encode (c.client_id.getD "" ++ ":" ++ c.client_secret.getD ""))
  else
    .error (.attributeError noAuthHeaderCredsMsg)

/-- `'Bearer {}'.format(access_token)` — Python formats `None` as the string
`None` (src lines 469 and 542). -/
def bearerOf (token : Option String) : String :=
  "Bearer " ++ (match token with | some t => t | none => "None")

/-- Which record `self._caller` references: `None`, the client-credentials
record, or the user-credentials record (src line 270, spec section 3). -/
inductive CallerRef where
  | noCaller
  | clientC
  | userC
deriving DecidableEq, Repr

/-- The client (session) state the dispatcher consults: the two credential
records and the active-caller reference. -/
structure CState where
  client_creds : ClientCredentials
  user_creds : Option UserCredentials
  caller : CallerRef
deriving DecidableEq, Repr

/-- `getattr(self._caller, 'access_is_expired', None)` (src line 296): `None`
when there is no caller object, else the caller record's expiry check. -/
def callerAccessIsExpired (st : CState) (now : Int) : Option Bool :=
  match st.caller with
  | .noCaller => none
  | .clientC => access_is_expired st.client_creds.expiry now
  | .userC =>
    match st.user_creds with
    | none => none
    | some u => access_is_expired u.expiry now

/-- `_access_authorization_header` (src lines 539-544): `ApiError` when no
caller is set, else the Bearer header of the caller record's access token. -/
def access_authorization_header (st : CState) : Except PyErr String :=
  match st.caller with
  | .noCaller => .error (.apiError (.text noCallerMsg) none)
  | .clientC => .ok (bearerOf st.client_creds.access_token)
  | .userC =>
    match st.user_creds with
    | none => .error (.apiError (.text noCallerMsg) none)
    | some u => .ok (bearerOf u.access_token)

/-- Observable record of a dispatch: the Authorization header of each send, in
order, and how many times the refresh operation was invoked. -/
structure Trace where
  sentAuthHeaders : List String
  refreshes : Nat
deriving DecidableEq, Repr

/-- The empty trace. -/
def emptyTrace : Trace := ⟨[], 0⟩

/-- Propositional equality on `Except` is decidable when it is on both of its
components. -/
instance exceptDecEq {ε α : Type} [DecidableEq ε] [DecidableEq α] :
    DecidableEq (Except ε α) := fun a b =>
  match a, b with
  | .ok x, .ok y =>
    if h : x = y then .isTrue (by rw [h])
    else .isFalse (by intro hh; cases hh; exact h rfl)
  | .error x, .error y =>
    if h : x = y then .isTrue (by rw [h])
    else .isFalse (by intro hh; cases hh; exact h rfl)
  | .ok _, .error _ => .isFalse (by intro hh; cases hh)
  | .error _, .ok _ => .isFalse (by intro hh; cases hh)

/-- Result of an operation: its outcome (normal return or raised error), the
client state afterwards, the unconsumed transport script, and the trace. -/
structure OpResult (α : Type) where
  outcome : Except PyErr α
  state : CState
  rest : Script
  trace : Trace
deriving DecidableEq, Repr

/-- Result of `_send_request`. -/
abbrev DispatchResult := OpResult HttpResponse

/-- The refresh operation `_refresh_token` (src lines 403-409) passed as an
oracle: it either raises or yields the state with refreshed credentials. -/
abbrev RefreshOracle := CState → Except PyErr CState

/-- `_send_request` (src lines 301-331). Each iteration consumes one transport
event and records the Authorization header it sent. A timeout raises
`ApiError`. `raise_for_status` raises exactly for statuses 400-599; then a 401
whose body's `error.message` equals `TOKEN_EXPIRED_MSG` invokes the refresh
operation, rebuilds the Bearer header, and recurses on the rest of the script
with the rebuilt header. The `assert new_auth_header != old_auth_header` at
src line 321 compares the dict returned by `_access_authorization_header`
(src line 542) to the string `r.headers['Authorization']` (src line 318), so
it always passes and the resend happens even when the rebuilt header equals
the old one; the model accordingly has no assertion branch. Any other 401
raises `AuthError`; any other 400-599 raises `ApiError`. An exhausted script
is a modelling artifact (the real transport always answers) reported as a
distinguished `ApiError`. -/
def send_request_go (refresh : RefreshOracle) :
    Script → CState → String → Trace → DispatchResult
  | [], st, _, tr =>
    ⟨.error (.apiError (.text "transport script exhausted") none), st, [], tr⟩
  | ev :: rest, st, auth, tr =>
    let tr1 : Trace := ⟨tr.sentAuthHeaders ++ [auth], tr.refreshes⟩
    match ev with
    | .timeout => ⟨.error (.apiError (.text timeoutMsg) none), st, rest, tr1⟩
    | .response res =>
      if 400 ≤ res.status_code ∧ res.status_code < 600 then
        if res.status_code = 401 then
          match errMessageLookup res.body with
          | .error e => ⟨.error e, st, rest, tr1⟩
          | .ok msg? =>
            if msg? = some TOKEN_EXPIRED_MSG then
              let tr2 : Trace := ⟨tr1.sentAuthHeaders, tr1.refreshes + 1⟩
              match refresh st with
              | .error e => ⟨.error e, st, rest, tr2⟩
              | .ok st' =>
                match access_authorization_header st' with
                | .error e => ⟨.error e, st', rest, tr2⟩
                | .ok newAuth => send_request_go refresh rest st' newAuth tr2
            else
              ⟨.error (.authError (authErrMsg res.body) (some res)), st, rest, tr1⟩
        else
          ⟨.error (.apiError (apiErrMsg res.body) (some res)), st, rest, tr1⟩
      else
        ⟨.ok res, st, rest, tr1⟩

/-- `_send_request` started with an empty trace. -/
def send_request (refresh : RefreshOracle) (script : Script) (st : CState)
    (auth : String) : DispatchResult :=
  send_request_go refresh script st auth emptyTrace

/-- `_send_authorized_request` (src lines 295-299): refresh first when the
caller's expiry check is exactly `True`, then attach the Bearer header of the
(possibly refreshed) caller and send. -/
def send_authorized_request (refresh : RefreshOracle) (now : Int) (st : CState)
    (script : Script) (tr : Trace) : DispatchResult :=
  if callerAccessIsExpired st now = some true then
    let tr1 : Trace := ⟨tr.sentAuthHeaders, tr.refreshes + 1⟩
    match refresh st with
    | .error e => ⟨.error e, st, script, tr1⟩
    | .ok st' =>
      match access_authorization_header st' with
      | .error e => ⟨.error e, st', script, tr1⟩
      | .ok auth => send_request_go refresh script st' auth tr1
  else
    match access_authorization_header st with
    | .error e => ⟨.error e, st, script, tr⟩
    | .ok auth => send_request_go refresh script st auth tr

/-- `if client_creds: self.client_creds = client_creds` at the head of
`authorize_client_creds` (src lines 337-340). -/
def installClientCreds (newCreds : Option ClientCredentials) (st : CState) : CState :=
  match newCreds with
  | some c => { st with client_creds := c }
  | none => st

/-- `authorize_client_creds` (src lines 333-355): optionally replace the
client record; fail with `AuthError` before any network call when `client_id`
or `client_secret` is falsy; POST to the token endpoint with the Basic header
(an `ApiError` of that send is wrapped into `AuthError`, any other error
propagates); parse the body, merge it into the stored client record, set the
client record as caller, and run the `_check_authorization` probe, whose
errors propagate. -/
def authorize_client_creds (refresh : RefreshOracle) (now : Int)
    (newCreds : Option ClientCredentials) (st : CState) (script : Script) :
    OpResult Unit :=
  let st0 := installClientCreds newCreds st
  if pyTruthyS st0.client_creds.client_id && pyTruthyS st0.client_creds.client_secret then
    match client_authorization_header st0.client_creds with
    | .error e => ⟨.error e, st0, script, emptyTrace⟩
    | .ok basic =>
      let r1 := send_request_go refresh script st0 basic emptyTrace
      match r1.outcome with
      | .error e =>
        let wrapped : PyErr :=
          match e with
          | .apiError _ res => .authError (.text clientAuthFailedMsg) res
          | other => other
        ⟨.error wrapped, r1.state, r1.rest, r1.trace⟩
      | .ok res =>
        match client_json_to_object now res.body with
        | .error e => ⟨.error e, r1.state, r1.rest, r1.trace⟩
        | .ok fresh =>
          let st2 : CState :=
            { r1.state with
              client_creds := update_client_creds_with r1.state.client_creds fresh,
              caller := .clientC }
          let chk := send_authorized_request refresh now st2 r1.rest r1.trace
          match chk.outcome with
          | .error e => ⟨.error e, chk.state, chk.rest, chk.trace⟩
          | .ok _ => ⟨.ok (), chk.state, chk.rest, chk.trace⟩
  else
    ⟨.error (.authError (.text noClientCredsMsg) none), st0, script, emptyTrace⟩

/-- The `_set_empty_user_creds_if_none` decorator (src lines 212-220): default
the user record when absent, then point the caller at the user record. -/
def userCredsAfterDefault (classDefaultState : String) (st : CState) : CState :=
  match st.user_creds with
  | none =>
    { st with user_creds := some (emptyUserCredentials classDefaultState), caller := .userC }
  | some _ => { st with caller := .userC }

/-- `getattr(self.user_creds, 'state', None)` (src line 433). -/
def storedStateOf (st : CState) : Option String :=
  match st.user_creds with
  | none => none
  | some u => u.state

/-- Tail of `build_user_credentials` after a (passed or skipped) state check
(src lines 438-455 with 457-472): POST the grant to the token endpoint with
the Basic header, parse the body into a fresh record, optionally resolve
`user_id` via a direct `/me` request bearing the fresh token, then either
merge into the stored record, return the stored record untouched, or return
the fresh record, per the two flags. -/
def buildUserCredentialsRest (refresh : RefreshOracle) (now : Int)
    (classDefaultState : String) (st : CState) (script : Script)
    (set_user_creds update_user_creds fetch_user_id : Bool) :
    OpResult (Option UserCredentials) :=
  match client_authorization_header st.client_creds with
  | .error e => ⟨.error e, st, script, emptyTrace⟩
  | .ok basic =>
    let r1 := send_request_go refresh script st basic emptyTrace
    match r1.outcome with
    | .error e => ⟨.error e, r1.state, r1.rest, r1.trace⟩
    | .ok res =>
      match user_json_to_object classDefaultState now res.body with
      | .error e => ⟨.error e, r1.state, r1.rest, r1.trace⟩
      | .ok fresh0 =>
        let afterId : Except PyErr UserCredentials × CState × Script × Trace :=
          if fetch_user_id then
            let r2 := send_request_go refresh r1.rest r1.state (bearerOf fresh0.access_token) r1.trace
            match r2.outcome with
            | .error e => (.error e, r2.state, r2.rest, r2.trace)
            | .ok res2 =>
              match res2.body.idField with
              | none => (.error (.keyError "id"), r2.state, r2.rest, r2.trace)
              | some uid => (.ok { fresh0 with user_id := some uid }, r2.state, r2.rest, r2.trace)
          else (.ok fresh0, r1.state, r1.rest, r1.trace)
        match afterId with
        | (.error e, st2, rest2, tr2) => ⟨.error e, st2, rest2, tr2⟩
        | (.ok fresh, st2, rest2, tr2) =>
          if update_user_creds && set_user_creds then
            match st2.user_creds with
            | some u =>
              let merged := update_user_creds_with u fresh
              ⟨.ok (some merged), { st2 with user_creds := some merged }, rest2, tr2⟩
            | none => ⟨.error (.attributeError "user_creds is None"), st2, rest2, tr2⟩
          else if set_user_creds then
            ⟨.ok st2.user_creds, st2, rest2, tr2⟩
          else
            ⟨.ok (some fresh), st2, rest2, tr2⟩

/-- `build_user_credentials` (src lines 423-455): the decorator defaults the
user record and points the caller at it; a supplied `state` that differs from
the stored record's state raises `AuthError` carrying a synthetic
401-status response, before any network call; otherwise the exchange proceeds. -/
def build_user_credentials (refresh : RefreshOracle) (now : Int)
    (classDefaultState : String) (st : CState) (script : Script)
    (state? : Option String)
    (set_user_creds update_user_creds fetch_user_id : Bool) :
    OpResult (Option UserCredentials) :=
  let st1 := userCredsAfterDefault classDefaultState st
  match state? with
  | some s =>
    if storedStateOf st1 = some s then
      buildUserCredentialsRest refresh now classDefaultState st1 script
        set_user_creds update_user_creds fetch_user_id
    else
      ⟨.error (.authError (.text statesMismatchMsg) (some ⟨401, emptyBody⟩)), st1, script,
        emptyTrace⟩
  | none =>
    buildUserCredentialsRest refresh now classDefaultState st1 script
      set_user_creds update_user_creds fetch_user_id

/-- Whether one transport event makes `_send_request` take the
refresh-and-resend branch: a 401 response whose `error.message` lookup
succeeds and equals `TOKEN_EXPIRED_MSG`. -/
def triggersRetry : TEvent → Bool
  | .timeout => false
  | .response res =>
    if 400 ≤ res.status_code ∧ res.status_code < 600 then
      if res.status_code = 401 then
        match errMessageLookup res.body with
        | .ok m => decide (m = some TOKEN_EXPIRED_MSG)
        | .error _ => false
      else false
    else false

/-- How `_send_request` resolves one transport event outside the
refresh-and-resend branch (spec-side restatement of the non-retry arms of
`send_request_go`, proved against it below). -/
def nonRetryOutcome : TEvent → Except PyErr HttpResponse
  | .timeout => .error (.apiError (.text timeoutMsg) none)
  | .response res =>
    if 400 ≤ res.status_code ∧ res.status_code < 600 then
      if res.status_code = 401 then
        match errMessageLookup res.body with
        | .error e => .error e
        | .ok _ => .error (.authError (authErrMsg res.body) (some res))
      else .error (.apiError (apiErrMsg res.body) (some res))
    else .ok res

/-- A refresh oracle that leaves the state unchanged. -/
def idRefresh : RefreshOracle := fun st => .ok st

/-- A refresh oracle that appends `x` to the user record's access token, so
every refresh yields a fresh Bearer header. -/
def bumpRefresh : RefreshOracle := fun st =>
  match st.user_creds with
  | some u => .ok { st with user_creds := some { u with access_token := some ((u.access_token.getD "") ++ "x") } }
  | none => .ok st

/-- A user record holding a given access token. -/
def userWith (t : String) : UserCredentials :=
  ⟨some t, some "R", none, none, none, some "SVal"⟩

/-- A state whose caller is the user record with the given token. -/
def stUser (t : String) : CState :=
  ⟨defaultClientCredentials, some (userWith t), .userC⟩

/-- A state with no active caller. -/
def stNoCaller : CState := ⟨defaultClientCredentials, none, .noCaller⟩

/-- Body of a 401 response indicating token expiry: an object-valued `error`
whose `message` is `TOKEN_EXPIRED_MSG`. -/
def expiredBody : JBody := { emptyBody with errorField := some (.asObj (some TOKEN_EXPIRED_MSG)) }

/-- The token-expired 401 response. -/
def res401expired : HttpResponse := ⟨401, expiredBody⟩

/-- A plain 200 response. -/
def res200 : HttpResponse := ⟨200, emptyBody⟩

/-- A 401 body in the auth-error shape the spec documents
(`{error, error_description}` with a string `error`). -/
def authShapedBody : JBody :=
  { emptyBody with errorField := some (.asStr "invalid_client"),
                   error_description := some "Invalid client" }

/-- A 401 body in the resource-error shape with a non-expiry message. -/
def otherMsgBody : JBody :=
  { emptyBody with errorField := some (.asObj (some "Invalid token")),
                   error_description := some "Desc" }

/-- A token-exchange body carrying `scope: "a b c"` and no refresh token. -/
def c7Body : JBody :=
  { emptyBody with access_token := some "tkn", scope := some "a b c", expires_in := some 3600 }

/-- A fully populated stored user record. -/
def c7Stored : UserCredentials :=
  ⟨some "old", some "R", some ["s1"], some 1, some "uid", some "SS"⟩

/-- A stored user record holding custom scopes and a custom state. -/
def c10Stored : UserCredentials :=
  ⟨some "old", some "R", some ["x"], some 1, some "u", some "SS"⟩

/-- A token-exchange body with `scope: "a b c"` and no refresh token. -/
def c10Body : JBody :=
  { emptyBody with access_token := some "t2", scope := some "a b c", expires_in := some 60 }

/-- A client record with every field present (non-absent) but an empty
`client_id` string. -/
def c9AllSet : ClientCredentials :=
  ⟨some "", some "sec", ["user-read-email"], some "http://localhost", some "false", none, none⟩

/-- Resolving one transport event in the branches of `_send_request` that do
not refresh agrees with `nonRetryOutcome`: the event is consumed, one send is
recorded, the state is unchanged and no refresh happens. -/
theorem send_request_go_nonretry_step (refresh : RefreshOracle) (ev : TEvent)
    (rest : Script) (st : CState) (auth : String) (tr : Trace)
    (h : triggersRetry ev = false) :
    send_request_go refresh (ev :: rest) st auth tr =
      ⟨nonRetryOutcome ev, st, rest, ⟨tr.sentAuthHeaders ++ [auth], tr.refreshes⟩⟩ := by
  cases ev with
  | timeout => simp [send_request_go, nonRetryOutcome]
  | response res =>
    by_cases h1 : 400 ≤ res.status_code ∧ res.status_code < 600
    · by_cases h2 : res.status_code = 401
      · cases hl : errMessageLookup res.body with
        | error e => simp [send_request_go, nonRetryOutcome, h1, h2, hl]
        | ok m =>
          have hm : ¬ m = some TOKEN_EXPIRED_MSG := by
            intro hmm
            simp [triggersRetry, h1, h2, hl, hmm] at h
          simp [send_request_go, nonRetryOutcome, h1, h2, hl, hm]
      · simp [send_request_go, nonRetryOutcome, h1, h2]
    · simp [send_request_go, nonRetryOutcome, h1]

/-- A 401 whose body carries the token-expired message makes `_send_request`
invoke the refresh operation once, rebuild the Bearer header, and resend on
the remaining script with the rebuilt header, provided the refresh succeeds —
whether or not the rebuilt header differs from the sent one (the source's
assert at line 321 compares a dict to a string and always passes). -/
theorem send_request_go_retry_step (refresh : RefreshOracle) (res1 : HttpResponse)
    (rest : Script) (st st' : CState) (auth newAuth : String) (tr : Trace)
    (h401 : res1.status_code = 401)
    (hexp : errMessageLookup res1.body = .ok (some TOKEN_EXPIRED_MSG))
    (href : refresh st = .ok st')
    (hhdr : access_authorization_header st' = .ok newAuth) :
    send_request_go refresh (TEvent.response res1 :: rest) st auth tr =
      send_request_go refresh rest st' newAuth
        ⟨tr.sentAuthHeaders ++ [auth], tr.refreshes + 1⟩ := by
  have h1 : 400 ≤ res1.status_code ∧ res1.status_code < 600 := by omega
  simp [send_request_go, h1, h401, hexp, href, hhdr]

/-- Claim C1, amended: when the first response is a 401 carrying the
token-expired message, `_send_request` performs one refresh and one resend
whose Authorization header is the Bearer header rebuilt from the refreshed
caller — a header that need not differ from the original, since the assert at
src line 321 compares the dict `new_auth_header` to the string
`old_auth_header` and always passes; when the resent request resolves to
anything that is not again a token-expired 401 — in particular any failure —
that outcome propagates unchanged with no further refresh or resend. (The
unamended claim's "no further refresh or resend" after an arbitrary failure
of the resend is false — a second token-expired 401 recurses — and its
guaranteed header change is false as well; see the counterexample.) -/
theorem c1_single_retry_then_resolve (refresh : RefreshOracle) (res1 : HttpResponse)
    (ev2 : TEvent) (rest : Script) (st st' : CState) (auth newAuth : String)
    (h401 : res1.status_code = 401)
    (hexp : errMessageLookup res1.body = .ok (some TOKEN_EXPIRED_MSG))
    (href : refresh st = .ok st')
    (hhdr : access_authorization_header st' = .ok newAuth)
    (h2 : triggersRetry ev2 = false) :
    send_request refresh (TEvent.response res1 :: ev2 :: rest) st auth =
      ⟨nonRetryOutcome ev2, st', rest, ⟨[auth, newAuth], 1⟩⟩ := by
  rw [send_request,
    send_request_go_retry_step refresh res1 (ev2 :: rest) st st' auth newAuth emptyTrace
      h401 hexp href hhdr,
    send_request_go_nonretry_step refresh ev2 rest st' newAuth _ h2]
  simp [emptyTrace]

/-- Witness for C1's amended theorem at a concrete state, refresh oracle and
script: one refresh, the resend carries the rebuilt Bearer header, and the
timeout of the resend propagates as its `ApiError`. -/
theorem c1_single_retry_then_resolve_witness :
    send_request bumpRefresh [TEvent.response res401expired, TEvent.timeout]
      (stUser "t") "Bearer t" =
      ⟨nonRetryOutcome TEvent.timeout, stUser "tx", [], ⟨["Bearer t", "Bearer tx"], 1⟩⟩ :=
  c1_single_retry_then_resolve bumpRefresh res401expired TEvent.timeout []
    (stUser "t") (stUser "tx") "Bearer t" "Bearer tx"
    rfl rfl (by decide) (by decide) rfl

/-- Counterexample to claim C1 as stated, in both of its failing parts.
First: a dispatched request whose first response is a token-expired 401 and
whose resend fails with a second token-expired 401 triggers a second refresh
and a third send instead of propagating the failure — the code recurses on
every token-expired 401. Second: when the refresh leaves the caller's token
unchanged, the resend is still performed and its Authorization header equals
the original one — the line-321 assert (dict vs string) never fires, so the
claimed header change is not guaranteed. -/
theorem c1_unbounded_retry_counterexample :
    (send_request bumpRefresh
      [TEvent.response res401expired, TEvent.response res401expired, TEvent.response res200]
      (stUser "t") "Bearer t").trace.refreshes = 2 ∧
    (send_request bumpRefresh
      [TEvent.response res401expired, TEvent.response res401expired, TEvent.response res200]
      (stUser "t") "Bearer t").trace.sentAuthHeaders =
        ["Bearer t", "Bearer tx", "Bearer txx"] ∧
    (send_request bumpRefresh
      [TEvent.response res401expired, TEvent.response res401expired, TEvent.response res200]
      (stUser "t") "Bearer t").outcome = .ok res200 ∧
    (send_request idRefresh [TEvent.response res401expired, TEvent.timeout]
      (stUser "t") "Bearer t").trace = ⟨["Bearer t", "Bearer t"], 1⟩ ∧
    (send_request idRefresh [TEvent.response res401expired, TEvent.timeout]
      (stUser "t") "Bearer t").outcome = .error (.apiError (.text timeoutMsg) none) :=
  ⟨by decide, by decide, by decide, by decide, by decide⟩

/-- Claim C2, amended: `access_is_expired` is `some true` iff `expiry` is set
and at-or-before now (the code compares with `<=`, not strictly), `some false`
iff `expiry` is set and strictly in the future, and `none` iff `expiry` is
unset. -/
theorem c2_access_is_expired_characterization (expiry : Option Int) (now : Int) :
    (access_is_expired expiry now = some true ↔ ∃ e, expiry = some e ∧ e ≤ now) ∧
    (access_is_expired expiry now = some false ↔ ∃ e, expiry = some e ∧ now < e) ∧
    (access_is_expired expiry now = none ↔ expiry = none) := by
  cases expiry with
  | none => simp [access_is_expired]
  | some e =>
    by_cases h : e ≤ now <;>
      simp [access_is_expired, h] <;> omega

/-- Counterexample to claim C2 as stated: at `expiry = now` the expiry is not
strictly before the current time, yet the check returns `true`. -/
theorem c2_boundary_counterexample :
    access_is_expired (some 0) 0 = some true ∧ ¬ ((0 : Int) < 0) := by
  exact ⟨by decide, by decide⟩

/-- Claim C3, confirmed: a client-credentials exchange invoked while
`client_id` or `client_secret` is absent raises `AuthError` at once, with an
empty trace — no network call. -/
theorem c3_client_creds_guard (refresh : RefreshOracle) (now : Int)
    (newCreds : Option ClientCredentials) (st : CState) (script : Script)
    (h : (installClientCreds newCreds st).client_creds.client_id = none ∨
         (installClientCreds newCreds st).client_creds.client_secret = none) :
    authorize_client_creds refresh now newCreds st script =
      ⟨.error (.authError (.text noClientCredsMsg) none), installClientCreds newCreds st,
        script, emptyTrace⟩ := by
  have hcond : (pyTruthyS (installClientCreds newCreds st).client_creds.client_id &&
      pyTruthyS (installClientCreds newCreds st).client_creds.client_secret) = false := by
    rcases h with h | h <;> simp [pyTruthyS, h]
  simp [authorize_client_creds, hcond]

/-- Witness for C3 at a concrete state whose client record has no
`client_id`. -/
theorem c3_client_creds_guard_witness :
    authorize_client_creds idRefresh 0 none stNoCaller [] =
      ⟨.error (.authError (.text noClientCredsMsg) none), stNoCaller, [], emptyTrace⟩ :=
  c3_client_creds_guard idRefresh 0 none stNoCaller [] (Or.inl rfl)

/-- Claim C4, confirmed: an authorization-code exchange given a `state` that
differs from the stored record's state (after the decorator defaults the
record) raises `AuthError` carrying a synthetic 401-status response, with an
empty trace — no network call. -/
theorem c4_state_mismatch_guard (refresh : RefreshOracle) (now : Int) (d : String)
    (st : CState) (script : Script) (s : String) (su uu fu : Bool)
    (h : ¬ storedStateOf (userCredsAfterDefault d st) = some s) :
    build_user_credentials refresh now d st script (some s) su uu fu =
      ⟨.error (.authError (.text statesMismatchMsg) (some ⟨401, emptyBody⟩)),
        userCredsAfterDefault d st, script, emptyTrace⟩ := by
  simp [build_user_credentials, h]

/-- Witness for C4 at a concrete state whose stored user record holds state
`SVal` while the supplied state is `OTHER`. -/
theorem c4_state_mismatch_guard_witness :
    build_user_credentials idRefresh 0 "D" (stUser "t") [] (some "OTHER") true true true =
      ⟨.error (.authError (.text statesMismatchMsg) (some ⟨401, emptyBody⟩)),
        userCredsAfterDefault "D" (stUser "t"), [], emptyTrace⟩ :=
  c4_state_mismatch_guard idRefresh 0 "D" (stUser "t") [] "OTHER" true true true (by decide)

/-- Claim C5, amended: an authorized-request dispatch with no active caller
fails before sending anything, but with an `ApiError` (raised by
`_access_authorization_header`), not an authentication error: the expiry
pre-check sees `getattr(None, ..., None) = None`, skips the refresh, and the
Bearer-header builder raises the API error. -/
theorem c5_no_caller_api_error (refresh : RefreshOracle) (now : Int) (st : CState)
    (script : Script) (h : st.caller = CallerRef.noCaller) :
    send_authorized_request refresh now st script emptyTrace =
      ⟨.error (.apiError (.text noCallerMsg) none), st, script, emptyTrace⟩ := by
  have h1 : callerAccessIsExpired st now = none := by simp [callerAccessIsExpired, h]
  have h2 : access_authorization_header st = .error (.apiError (.text noCallerMsg) none) := by
    simp [access_authorization_header, h]
  simp [send_authorized_request, h1, h2]

/-- Witness for C5's amended theorem at a concrete caller-less state. -/
theorem c5_no_caller_api_error_witness :
    send_authorized_request idRefresh 0 stNoCaller [] emptyTrace =
      ⟨.error (.apiError (.text noCallerMsg) none), stNoCaller, [], emptyTrace⟩ :=
  c5_no_caller_api_error idRefresh 0 stNoCaller [] rfl

/-- Counterexample to claim C5 as stated: with no active caller the dispatch
fails without sending, but the raised error is an `ApiError`, not an
authentication error. -/
theorem c5_no_caller_counterexample :
    send_authorized_request idRefresh 0 stNoCaller [] emptyTrace =
      ⟨.error (.apiError (.text noCallerMsg) none), stNoCaller, [], emptyTrace⟩ ∧
    outcomeIsAuthError (send_authorized_request idRefresh 0 stNoCaller [] emptyTrace).outcome
      = false :=
  ⟨by decide, by decide⟩

/-- Claim C6, amended: a first response that is a 401 without the
token-expired message neither refreshes nor resends (the trace stops at the
single send); when the body's `error` key holds an object the dispatcher
raises `AuthError` carrying the body's `error_description` (or the whole body
when that key is absent or empty, per `authErrMsg`); when the `error` key is
absent or holds a string, the message lookup itself raises `AttributeError`
instead of an authentication error. -/
theorem c6_401_other_message (refresh : RefreshOracle) (res : HttpResponse)
    (rest : Script) (st : CState) (auth : String)
    (h401 : res.status_code = 401)
    (hne : errMessageLookup res.body ≠ .ok (some TOKEN_EXPIRED_MSG)) :
    send_request refresh (TEvent.response res :: rest) st auth =
      ⟨(match errMessageLookup res.body with
        | .error e => .error e
        | .ok _ => .error (.authError (authErrMsg res.body) (some res))),
        st, rest, ⟨[auth], 0⟩⟩ := by
  have hc : 400 ≤ res.status_code ∧ res.status_code < 600 := by omega
  have ht : triggersRetry (TEvent.response res) = false := by
    cases hl : errMessageLookup res.body with
    | error e => simp [triggersRetry, hc, h401, hl]
    | ok m =>
      have hm : ¬ m = some TOKEN_EXPIRED_MSG := fun hmm => hne (by rw [hl, hmm])
      simp [triggersRetry, hc, h401, hl, hm]
  rw [send_request, send_request_go_nonretry_step refresh _ rest st auth emptyTrace ht]
  simp only [nonRetryOutcome, hc, h401, if_true, emptyTrace]
  cases hl : errMessageLookup res.body <;> simp [hl]

/-- Witness for C6's amended theorem: a 401 with an object-shaped error whose
message is not the token-expired string resolves to an `AuthError` carrying
the error description, after exactly one send and zero refreshes. -/
theorem c6_401_other_message_witness :
    send_request idRefresh [TEvent.response ⟨401, otherMsgBody⟩] (stUser "t") "Bearer t" =
      ⟨.error (.authError (.text "Desc") (some ⟨401, otherMsgBody⟩)),
        stUser "t", [], ⟨["Bearer t"], 0⟩⟩ := by
  exact c6_401_other_message idRefresh ⟨401, otherMsgBody⟩ [] (stUser "t") "Bearer t" rfl
    (by decide)

/-- Counterexample to claim C6 as stated: a 401 whose body has the
auth-error shape the spec documents (`error` is a string, with an
`error_description`) makes the message lookup crash with `AttributeError` —
not an `AuthenticationError` — though still with no refresh and no resend. -/
theorem c6_auth_shaped_counterexample :
    (send_request idRefresh [TEvent.response ⟨401, authShapedBody⟩] (stUser "t") "Bearer t").outcome
      = .error (.attributeError strNoGetMsg) ∧
    outcomeIsAuthError
      (send_request idRefresh [TEvent.response ⟨401, authShapedBody⟩] (stUser "t") "Bearer t").outcome
      = false ∧
    (send_request idRefresh [TEvent.response ⟨401, authShapedBody⟩] (stUser "t") "Bearer t").trace
      = ⟨["Bearer t"], 0⟩ :=
  ⟨by decide, by decide, by decide⟩

/-- Claim C7 (code bug): parsing a token-exchange body with `scope: "a b c"`
yields a record whose `scopes` attribute is absent — `UserCredentials.__init__`
accepts the split scopes but never assigns `self.scopes` — so the claimed
`scopes == ["a","b","c"]` never materialises; the merge half of the claim
holds: fields absent on the parsed record (the missing `refresh_token`, and
`scopes` itself) are left unchanged on the stored record. -/
theorem c7_scopes_dropped_evaluation :
    user_json_to_object "D0" 0 c7Body =
      .ok ⟨some "tkn", none, none, some 3600, none, some "D0"⟩ ∧
    update_user_creds_with c7Stored ⟨some "tkn", none, none, some 3600, none, some "D0"⟩ =
      ⟨some "tkn", some "R", some ["s1"], some 3600, some "uid", some "D0"⟩ :=
  ⟨by decide, by decide⟩

/-- Claim C8 (code bug): the default `state` is `_create_secret()` evaluated
once, when the `class UserCredentials` statement runs; every construction that
omits `state` stores that same class-level value, so two independently
constructed records have equal — not independently generated — states. -/
theorem c8_shared_default_state_evaluation :
    (UserCredentials.init "SECRET" (some "a") none [] none none none).state = some "SECRET" ∧
    (UserCredentials.init "SECRET" none (some "r") ["x"] (some 5) (some "u") none).state
      = some "SECRET" ∧
    (UserCredentials.init "SECRET" (some "a") none [] none none none).state =
      (UserCredentials.init "SECRET" none (some "r") ["x"] (some 5) (some "u") none).state :=
  ⟨rfl, rfl, rfl⟩

/-- Claim C9, amended: `is_oauth_ready` holds iff `client_id` and
`redirect_uri` are set and non-empty, `scopes` is non-empty, and `show_dialog`
is not `None` — Python truthiness, not mere presence, for the first three. -/
theorem c9_is_oauth_ready_characterization (c : ClientCredentials) :
    is_oauth_ready c = true ↔
      ((∃ s, c.client_id = some s ∧ s ≠ "") ∧ (∃ s, c.redirect_uri = some s ∧ s ≠ "") ∧
        c.scopes ≠ [] ∧ c.show_dialog ≠ none) := by
  cases hci : c.client_id <;> cases hru : c.redirect_uri <;>
    cases hsd : c.show_dialog <;> cases hsc : c.scopes <;>
      simp [is_oauth_ready, pyTruthyS, pyTruthyL, hci, hru, hsd, hsc]

/-- Counterexample to claim C9 as stated: a record on which `client_id`,
`redirect_uri`, `scopes` and `show_dialog` are all present (non-absent) but
`client_id` is the empty string is not oauth-ready. -/
theorem c9_empty_client_id_counterexample :
    is_oauth_ready c9AllSet = false ∧ c9AllSet.client_id.isSome = true ∧
    c9AllSet.redirect_uri.isSome = true ∧ c9AllSet.scopes ≠ [] ∧
    c9AllSet.show_dialog.isSome = true := by
  exact ⟨by decide, by decide, by decide, by decide, by decide⟩

/-- Claim C10, amended: merging the parsed result of a token exchange always
overwrites the stored record's `state` (with the class-level default secret,
which the parsed record always carries), but never overwrites `scopes`: the
constructor discards the scopes argument, so the parsed record has no scopes
attribute and the stored scopes are always preserved. -/
theorem c10_merge_frame (d : String) (now : Int) (b : JBody)
    (stored parsed : UserCredentials)
    (h : user_json_to_object d now b = .ok parsed) :
    (update_user_creds_with stored parsed).scopes = stored.scopes ∧
    (update_user_creds_with stored parsed).state = some d := by
  rcases hA : b.access_token with _ | tok
  · simp [user_json_to_object, hA] at h
  · rcases hS : b.scope with _ | sc
    · simp [user_json_to_object, hA, hS] at h
    · rcases hE : b.expires_in with _ | ei
      · simp [user_json_to_object, hA, hS, hE] at h
      · simp only [user_json_to_object, hA, hS, hE, Except.ok.injEq] at h
        subst h
        exact ⟨rfl, rfl⟩

/-- Witness for C10's amended theorem at a concrete body and stored record. -/
theorem c10_merge_frame_witness :
    (update_user_creds_with c10Stored ⟨some "t2", none, none, some 65, none, some "DW"⟩).scopes
      = c10Stored.scopes ∧
    (update_user_creds_with c10Stored ⟨some "t2", none, none, some 65, none, some "DW"⟩).state
      = some "DW" :=
  c10_merge_frame "DW" 5 c10Body c10Stored ⟨some "t2", none, none, some 65, none, some "DW"⟩
    (by decide)

/-- Counterexample to claim C10 as stated: the parsed record of a body with
`scope: "a b c"` has no scopes, so the merge leaves the stored scopes `["x"]`
in place instead of overwriting them. -/
theorem c10_scopes_not_overwritten_counterexample :
    user_json_to_object "DD" 0 c10Body =
      .ok ⟨some "t2", none, none, some 60, none, some "DD"⟩ ∧
    (update_user_creds_with c10Stored ⟨some "t2", none, none, some 60, none, some "DD"⟩).scopes
      = some ["x"] ∧
    (update_user_creds_with c10Stored ⟨some "t2", none, none, some 60, none, some "DD"⟩).scopes
      ≠ some ["a", "b", "c"] :=
  ⟨by decide, by decide, by decide⟩

end Pyfy
